import Mathlib

/-!
Verification of the CodeGuardian analysis core against its specification.

This file gives a shallow embedding, in Lean 4, of the two modules of the
repository that the claims under scrutiny concern:

* `src/dashboard/stats_generator.py` (class `StatsGenerator`): statistics
  aggregation, the logarithmic 0-100 risk score, and cross-scan trend data;
* `src/ml/fix_generator.py` (class `FixGenerator`): template-based fix
  generation with its generic type-based fallback.

Python dictionaries of finding records are embedded as a `Finding` structure
whose fields are `Option`-valued (a missing dictionary key is `none`);
`dict.get(k, d)` becomes `Option.getD`.  Python `float` arithmetic is embedded
as exact arithmetic (`ℚ` for the weight accumulation, `ℝ` for the score, whose
formula uses the natural logarithm).  `datetime.now()` timestamps are outside
the embedding (no claim concerns them), so the `generated_at` field of the
statistics dictionary is omitted from the `Stats` structure.
-/

/-- A Python value that may sit in the `confidence` slot of a finding
dictionary: either a number (`int`/`float`) or some other (non-numeric)
value, which the statistics generator coerces to `0`. -/
inductive PyVal where
  | num (q : ℚ)
  | str (s : String)
deriving DecidableEq

/-- A finding record, as passed around the repository as a `dict`.
Each field models one dictionary key; `none` models an absent key. -/
structure Finding where
  risk_level : Option String := none
  type : Option String := none
  confidence : Option PyVal := none
  file_path : Option String := none
  code_snippet : Option String := none
deriving DecidableEq

/-- Python `str.lower()` (ASCII case folding), modelled character-wise on the
underlying character list.  (`Char.toLower` is the ASCII case folding of one
character.) -/
def pyLower (s : String) : String := String.mk (s.data.map Char.toLower)

/-- Python `str.upper()` (ASCII case folding), modelled character-wise. -/
def pyUpper (s : String) : String := String.mk (s.data.map Char.toUpper)

/-- Python substring containment `needle in hay` on the character list of
`hay`: some suffix of `hay` has `needle` as a prefix. -/
def pyInAux (needle : List Char) : List Char → Bool
  | [] => needle.isEmpty
  | a :: l => needle.isPrefixOf (a :: l) || pyInAux needle l

/-- Python string containment test `needle in hay`. -/
def pyIn (needle hay : String) : Bool := pyInAux needle.data hay.data

namespace StatsGenerator

/-- First-occurrence key list of a `collections.Counter` built from `l`:
iterating the list, a fresh element is appended to the key list. -/
def counterKeys (l : List String) : List String :=
  l.foldl (fun acc x => if x ∈ acc then acc else acc ++ [x]) []

/-- `dict(collections.Counter(l))`: association list from each distinct
element of `l` (in first-occurrence order) to its number of occurrences. -/
def pyCounter (l : List String) : List (String × Nat) :=
  (counterKeys l).map fun k => (k, l.count k)

/-- `sorted(cnts.items(), key=lambda x: x[1], reverse=True)`: stable sort of
a counter's items by descending count. -/
def sortByCountDesc (cnts : List (String × Nat)) : List (String × Nat) :=
  cnts.mergeSort (fun a b => b.2 ≤ a.2)

/-- The numeric coercion applied to each confidence value before averaging:
`float(v.get("confidence", 0)) if isinstance(..., (int, float)) else 0`. -/
def confidenceNum (v : Finding) : ℚ :=
  match v.confidence.getD (.num 0) with
  | .num q => q
  | .str _ => 0

/-- The statistics dictionary returned by `StatsGenerator.generate`
(without the `generated_at` wall-clock field, see the module comment). -/
structure Stats where
  total_vulnerabilities : Nat
  risk_distribution : List (String × Nat)
  type_distribution : List (String × Nat)
  top_vulnerability_types : List (String × Nat)
  average_confidence : ℚ
  top_vulnerable_files : List (String × Nat)
deriving DecidableEq

/-- `StatsGenerator._empty_stats`. -/
def empty_stats : Stats :=
  { total_vulnerabilities := 0
    risk_distribution := []
    type_distribution := []
    top_vulnerability_types := []
    average_confidence := 0
    top_vulnerable_files := [] }

/-- `StatsGenerator.generate`. -/
def generate (vulnerabilities : List Finding) : Stats :=
  if vulnerabilities.isEmpty then empty_stats
  else
    let risk_levels := vulnerabilities.map
      fun v => pyLower (v.risk_level.getD "unknown")
    let risk_counts := pyCounter risk_levels
    let vuln_types := vulnerabilities.map
      fun v => pyLower (v.type.getD "unknown")
    let type_counts := pyCounter vuln_types
    let top_types := (sortByCountDesc type_counts).take 5
    let confidences := vulnerabilities.map confidenceNum
    let avg_confidence :=
      if ¬ confidences.isEmpty then confidences.sum / confidences.length else 0
    let file_counts := pyCounter
      (vulnerabilities.map fun v => v.file_path.getD "unknown")
    let top_files := (sortByCountDesc file_counts).take 5
    { total_vulnerabilities := vulnerabilities.length
      risk_distribution := risk_counts
      type_distribution := type_counts
      top_vulnerability_types := top_types
      average_confidence := avg_confidence
      top_vulnerable_files := top_files }

/-- The `risk_weights` table of `StatsGenerator.calculate_risk_score`. -/
def risk_weights : List (String × ℚ) :=
  [("critical", 10), ("high", 5), ("medium", 3),
   ("low", 1), ("info", 1/2), ("unknown", 1)]

/-- The weight contributed by one finding:
`risk_weights.get(vuln.get("risk_level", "unknown").lower(), 1)`. -/
def vulnWeight (v : Finding) : ℚ :=
  (risk_weights.lookup (pyLower (v.risk_level.getD "unknown"))).getD 1

/-- The `total_weight` accumulation loop of `calculate_risk_score`. -/
def total_weight (vulnerabilities : List Finding) : ℚ :=
  vulnerabilities.foldl (fun acc v => acc + vulnWeight v) 0

/-- `round(x, 1)`: rounding to one decimal place. -/
noncomputable def round1 (x : ℝ) : ℝ :=
  ((round (10 * x) : ℤ) : ℝ) / 10

/-- `StatsGenerator.calculate_risk_score`.  `max_reasonable_weight = 50`. -/
noncomputable def calculate_risk_score (vulnerabilities : List Finding) : ℝ :=
  if vulnerabilities.isEmpty then 0
  else
    let tw := total_weight vulnerabilities
    if tw = 0 then 0
    else round1 (min 100 (100 * Real.log (1 + (tw : ℝ) / 50) / Real.log 2))

/-- One stored scan result, as read by `generate_trend_data`
(`scan_results[scan_id]`): a dictionary with optional `timestamp`,
`vulnerabilities` and `risk_score` keys. -/
structure ScanResult where
  timestamp : Option String := none
  vulnerabilities : Option (List Finding) := none
  risk_score : Option ℚ := none

/-- The `trend_data` dictionary of parallel lists built by
`generate_trend_data`. -/
structure TrendData where
  dates : List String
  critical : List Nat
  high : List Nat
  medium : List Nat
  low : List Nat
  risk_scores : List ℚ
deriving DecidableEq

/-- The lower-cased risk levels of the vulnerabilities of one scan result
(`risk_levels` in the loop body of `generate_trend_data`). -/
def resultRiskLevels (result : ScanResult) : List String :=
  (result.vulnerabilities.getD []).map
    fun v => pyLower (v.risk_level.getD "unknown")

/-- The loop body of `generate_trend_data`: a resolvable scan id appends one
data point to every list; an unresolvable one leaves the data unchanged. -/
def trendStep (scan_results : String → Option ScanResult)
    (td : TrendData) (scan_id : String) : TrendData :=
  match scan_results scan_id with
  | none => td
  | some result =>
    let rl := resultRiskLevels result
    { dates := td.dates ++ [result.timestamp.getD ""]
      critical := td.critical ++ [rl.count "critical"]
      high := td.high ++ [rl.count "high"]
      medium := td.medium ++ [rl.count "medium"]
      low := td.low ++ [rl.count "low"]
      risk_scores := td.risk_scores ++ [result.risk_score.getD 0] }

/-- `StatsGenerator.generate_trend_data`.  The Python dictionary of stored
results is embedded as a partial map `String → Option ScanResult`. -/
def generate_trend_data (scan_ids : List String)
    (scan_results : String → Option ScanResult) : TrendData :=
  scan_ids.foldl (trendStep scan_results) ⟨[], [], [], [], [], []⟩

end StatsGenerator

namespace FixGenerator

/-!
Embedding of `src/ml/fix_generator.py`.

The regular expressions of the fix templates are embedded as sequences of
`RItem`s interpreted by a backtracking matcher (`matchSeq` / `reSearch`) with
Python `re.search` semantics: leftmost starting position first and, at each
position, lazy quantifiers prefer the shortest repetition, greedy ones the
longest, alternatives are tried left to right, with full backtracking.
Every repetition in the four template patterns ranges over a single-character
class, which is what `RItem` supports.  `.` does not match a newline, `\w` and
`\s` are the ASCII word and whitespace classes.
-/

/-- A single-character class of the template regexes: `\w`, `\s`, `.`
(anything but a newline) and the class `[...]` of the two quote characters. -/
inductive CharCls where
  | word
  | space
  | anyc
  | quote
deriving DecidableEq

/-- Which characters a class matches. -/
def clsMatch : CharCls → Char → Bool
  | .word, c => c.isAlphanum || c = '_'
  | .space, c =>
      c = ' ' || c = '\t' || c = '\n' || c = '\r' || c = '\x0b' || c = '\x0c'
  | .anyc, c => c != '\n'
  | .quote, c => c = '\x27' || c = '\x22'

/-- One item of a compiled template pattern. -/
inductive RItem where
  /-- a literal string, with every metacharacter escaped in the source -/
  | lit (s : String)
  /-- a single character of a class -/
  | cls (c : CharCls)
  /-- `C*` (greedy) or `C*?` (lazy) over a single-character class -/
  | star (c : CharCls) (lazy : Bool)
  /-- `C+` (greedy) or `C+?` (lazy) over a single-character class -/
  | plus (c : CharCls) (lazy : Bool)
  /-- an alternation of literal strings -/
  | alts (ss : List String)
  /-- the negative lookahead `(?!.*s)` for a literal `s`: fails when `s`
  occurs further in the current line -/
  | nla (s : String)
  /-- an opening capturing parenthesis -/
  | gopen
  /-- a closing capturing parenthesis -/
  | gclose
deriving DecidableEq

/-- Matcher state: remaining input, the remaining input as it was at the
last open parenthesis, and the completed captures in group order. -/
structure MState where
  rem : List Char
  gstart : Option (List Char)
  caps : List String
deriving DecidableEq

/-- Length of the maximal run of characters of class `c` at the head. -/
def runLen (c : CharCls) : List Char → Nat
  | [] => 0
  | a :: l => if clsMatch c a then runLen c l + 1 else 0

/-- Does `.*s` match here?  (The body of the negative lookahead: `s` occurs
after zero or more non-newline characters.) -/
def nlaMatches (s : List Char) : List Char → Bool
  | [] => s.isEmpty
  | a :: l => s.isPrefixOf (a :: l) || (a != '\n' && nlaMatches s l)

/-- The backtracking matcher: tries to match the item sequence at the start
of `st.rem`, in Python preference order, and returns the final state of the
first (preferred) complete match. -/
def matchSeq : List RItem → MState → Option MState
  | [], st => some st
  | .lit s :: rest, st =>
      if s.data.isPrefixOf st.rem then
        matchSeq rest { st with rem := st.rem.drop s.length }
      else none
  | .cls c :: rest, st =>
      match st.rem with
      | [] => none
      | a :: l => if clsMatch c a then matchSeq rest { st with rem := l } else none
  | .star c lz :: rest, st =>
      let n := runLen c st.rem
      let counts := if lz then List.range (n + 1) else (List.range (n + 1)).reverse
      counts.findSome? fun i => matchSeq rest { st with rem := st.rem.drop i }
  | .plus c lz :: rest, st =>
      let n := runLen c st.rem
      let counts := if lz then (List.range n).map (· + 1)
                    else ((List.range n).map (· + 1)).reverse
      counts.findSome? fun i => matchSeq rest { st with rem := st.rem.drop i }
  | .alts ss :: rest, st =>
      ss.findSome? fun s =>
        if s.data.isPrefixOf st.rem then
          matchSeq rest { st with rem := st.rem.drop s.length }
        else none
  | .nla s :: rest, st =>
      if nlaMatches s.data st.rem then none else matchSeq rest st
  | .gopen :: rest, st => matchSeq rest { st with gstart := some st.rem }
  | .gclose :: rest, st =>
      let start := st.gstart.getD st.rem
      let cap := start.take (start.length - st.rem.length)
      matchSeq rest { rem := st.rem, gstart := none, caps := st.caps ++ [String.mk cap] }

/-- `re.search(pattern, s)`: try every starting position from the left and
return the captured groups of the first match, `none` when there is none. -/
def reSearch (items : List RItem) (s : String) : Option (List String) :=
  (List.range (s.data.length + 1)).findSome? fun i =>
    (matchSeq items { rem := s.data.drop i, gstart := none, caps := [] }).map MState.caps

/-- The `sql_injection` template pattern, compiled.  Source regex (quotes
written as QT, braces as {}):
`cursor\.execute\s*\(\s*[QT"].*?\s*\+\s*(.+?)\s*[QT"]\s*\)` -/
def sqlPattern : List RItem :=
  [.lit "cursor.execute", .star .space false, .lit "(", .star .space false,
   .cls .quote, .star .anyc true, .star .space false, .lit "+",
   .star .space false, .gopen, .plus .anyc true, .gclose, .star .space false,
   .cls .quote, .star .space false, .lit ")"]

/-- The `command_injection` template pattern, compiled.  Source regex:
`(os\.system|subprocess\.call|subprocess\.Popen)\s*\(\s*[QT"].*?\s*\+\s*(.+?)\s*[QT"]\s*\)` -/
def cmdPattern : List RItem :=
  [.gopen, .alts ["os.system", "subprocess.call", "subprocess.Popen"], .gclose,
   .star .space false, .lit "(", .star .space false, .cls .quote,
   .star .anyc true, .star .space false, .lit "+", .star .space false,
   .gopen, .plus .anyc true, .gclose, .star .space false, .cls .quote,
   .star .space false, .lit ")"]

/-- The `hardcoded_secrets` template pattern, compiled.  Source regex (with
LB for the opening-brace character):
`(\w+)\s*=\s*[QT"]((?!.*\$LB)(?!.*LBLB).+?)[QT"]\s*` -/
def secretsPattern : List RItem :=
  [.gopen, .plus .word false, .gclose, .star .space false, .lit "=",
   .star .space false, .cls .quote, .gopen, .nla "$\x7b", .nla "\x7b\x7b",
   .plus .anyc true, .gclose, .cls .quote, .star .space false]

/-- The `insecure_deserialization` template pattern, compiled.  Source regex:
`pickle\.loads\s*\(\s*(.+?)\s*\)` -/
def picklePattern : List RItem :=
  [.lit "pickle.loads", .star .space false, .lit "(", .star .space false,
   .gopen, .plus .anyc true, .gclose, .star .space false, .lit ")"]

/-- One value of the `fix_templates` dictionary: the compiled detection
pattern, the replacement text and the explanation. -/
structure FixTemplate where
  pattern : List RItem
  replacement : String
  explanation : String
deriving DecidableEq

/-- The keys of each template dictionary
(`{"pattern": ..., "replacement": ..., "explanation": ...}`); the membership
tests `"sql_injection" in template` etc. of `_apply_template` test
against these keys. -/
def templateKeys : List String := ["pattern", "replacement", "explanation"]

/-- `FixGenerator.fix_templates` (an insertion-ordered dictionary). -/
def fix_templates : List (String × FixTemplate) :=
  [("sql_injection",
    { pattern := sqlPattern
      replacement := "cursor.execute(\x27{}\x27, [{}])"
      explanation := "Use parameterized queries to prevent SQL injection." }),
   ("command_injection",
    { pattern := cmdPattern
      replacement := "# SECURITY: Avoid shell commands with user input\n# Consider using secure alternatives like:\n# shlex.quote() or dedicated APIs"
      explanation := "Avoid shell commands with concatenated user input." }),
   ("hardcoded_secrets",
    { pattern := secretsPattern
      replacement := "{} = os.environ.get(\x27{}\x27, \x27\x27)"
      explanation := "Store secrets in environment variables or a secure vault service." }),
   ("insecure_deserialization",
    { pattern := picklePattern
      replacement := "# SECURITY: Avoid pickle with untrusted data\n# Consider JSON or other safer serialization formats"
      explanation := "Pickle is vulnerable to code execution attacks with untrusted data." })]

/-- A fix suggestion dictionary
(`{"fixed_code": ..., "explanation": ..., "confidence": ...}`). -/
structure Fix where
  fixed_code : String
  explanation : String
  confidence : String
deriving DecidableEq

/-- Python `str.strip()` (strip surrounding whitespace), on character
lists. -/
def pyStrip (s : String) : String :=
  String.mk (((s.data.dropWhile Char.isWhitespace).reverse.dropWhile
    Char.isWhitespace).reverse)

/-- Python `str.strip(c)` for a single character `c`. -/
def pyStripChar (c : Char) (s : String) : String :=
  String.mk (((s.data.dropWhile (· = c)).reverse.dropWhile (· = c)).reverse)

/-- Python `template.format(a, b)` for a template with exactly two `{}`
placeholders (all templates formatted by `_apply_template` have two). -/
def pyFormat2 (t a b : String) : String :=
  match t.splitOn "{}" with
  | [p, q, r] => p ++ a ++ q ++ b ++ r
  | _ => t

/-- `FixGenerator._apply_template`.  The `try`/`except` of the source cannot
raise in this embedding (all the string operations involved are total), so
the `except` branch that returns `None` is unreachable here; `none` is
exactly the `return None` of a failed `re.search`.  Note the three branch
conditions (`"sql_injection" in template`, ...) test membership among the
keys of the template dictionary, mirroring the source. -/
def applyTemplate (template : FixTemplate) (code_snippet : String) : Option Fix :=
  match reSearch template.pattern code_snippet with
  | none => none
  | some caps =>
    let fixed_code :=
      if "sql_injection" ∈ templateKeys then
        -- query_parts = code_snippet.split("+"); static_part strips quotes
        let query_parts := code_snippet.splitOn "+"
        let static_part := pyStripChar '\x22' (pyStripChar '\x27'
          (pyStrip (query_parts.headD "")))
        let param_part := pyStrip (caps.getD 0 "")
        pyFormat2 template.replacement static_part param_part
      else if "command_injection" ∈ templateKeys then
        template.replacement
      else if "hardcoded_secrets" ∈ templateKeys then
        let var_name := caps.getD 0 ""
        let env_var_name := pyUpper var_name
        pyFormat2 template.replacement var_name env_var_name
      else
        template.replacement
    some { fixed_code := fixed_code
           explanation := template.explanation
           confidence := "medium" }

/-- `FixGenerator._generate_type_based_fix`. -/
def generate_type_based_fix (vulnerability : Finding) : Fix :=
  let vuln_type := pyLower (vulnerability.type.getD "")
  let code_snippet := vulnerability.code_snippet.getD ""
  if pyIn "sql" vuln_type then
    { fixed_code := "# Use parameterized queries\ncursor.execute(\x27SELECT * FROM table WHERE field = %s\x27, [user_input])"
      explanation := "Use parameterized queries to prevent SQL injection."
      confidence := "low" }
  else if ["command", "os.system", "subprocess"].any (fun x => pyIn x vuln_type) then
    { fixed_code := "# Avoid shell=True and command concatenation\nimport shlex\nsafe_args = [safe_command, shlex.quote(user_input)]\nsubprocess.run(safe_args, shell=False, check=True)"
      explanation := "Use subprocess with properly quoted arguments and avoid shell=True."
      confidence := "low" }
  else if pyIn "xss" vuln_type then
    { fixed_code := "# Use proper escaping/encoding\nfrom html import escape\nsafe_output = escape(user_input)\nresponse.write(f\x27<div>{safe_output}</div>\x27)"
      explanation := "Always encode/escape user input before rendering in HTML context."
      confidence := "low" }
  else if pyIn "path" vuln_type || pyIn "file" vuln_type then
    { fixed_code := "# Validate file paths\nimport os.path\nsafe_path = os.path.normpath(os.path.join(safe_base_dir, user_filename))\nif not safe_path.startswith(safe_base_dir):\n    raise ValueError(\x27Invalid path\x27)"
      explanation := "Validate and sanitize file paths to prevent directory traversal."
      confidence := "low" }
  else
    { fixed_code := "# Review and fix this vulnerability\n# " ++ code_snippet
      explanation := "This requires manual review."
      confidence := "low" }

/-- `FixGenerator.generate_fix`: try, in dictionary order, every template
whose key occurs in the (lower-cased) vulnerability type; the first template
that produces a fix wins, otherwise fall back to the type-based fix. -/
def generate_fix (vulnerability : Finding) : Option Fix :=
  let vuln_type := pyLower (vulnerability.type.getD "")
  let code_snippet := vulnerability.code_snippet.getD ""
  match fix_templates.findSome? (fun p =>
      if pyIn p.1 vuln_type then applyTemplate p.2 code_snippet else none) with
  | some fix => some fix
  | none => some (generate_type_based_fix vulnerability)

end FixGenerator

namespace StatsGenerator

lemma counterKeys_go_nodup (l acc : List String) (h : acc.Nodup) :
    (l.foldl (fun acc x => if x ∈ acc then acc else acc ++ [x]) acc).Nodup := by
  induction l generalizing acc with
  | nil => simpa using h
  | cons a l ih =>
    simp only [List.foldl_cons]
    apply ih
    split
    · exact h
    · simp [List.nodup_append, h]
      intro hx
      simp_all

lemma mem_counterKeys_go (l : List String) :
    ∀ (acc : List String) (x : String),
      x ∈ l.foldl (fun acc x => if x ∈ acc then acc else acc ++ [x]) acc ↔
        x ∈ acc ∨ x ∈ l := by
  induction l with
  | nil => simp
  | cons a l ih =>
    intro acc x
    simp only [List.foldl_cons, ih, List.mem_cons]
    split
    · rename_i ha
      constructor
      · rintro (h | h)
        · exact Or.inl h
        · exact Or.inr (Or.inr h)
      · rintro (h | h | h)
        · exact Or.inl h
        · subst h; exact Or.inl ha
        · exact Or.inr h
    · simp only [List.mem_append, List.mem_singleton]
      tauto

lemma counterKeys_nodup (l : List String) : (counterKeys l).Nodup :=
  counterKeys_go_nodup l [] List.nodup_nil

lemma mem_counterKeys (l : List String) (x : String) :
    x ∈ counterKeys l ↔ x ∈ l := by
  simpa using mem_counterKeys_go l [] x

lemma pyCounter_snd_sum (l : List String) :
    ((pyCounter l).map Prod.snd).sum = l.length := by
  unfold pyCounter
  rw [List.map_map]
  have h2 := List.sum_toFinset (fun k => l.count k) (counterKeys_nodup l)
  have h1 : (counterKeys l).toFinset = l.toFinset := by
    ext a; simp [List.mem_toFinset, mem_counterKeys]
  have h3 : (Prod.snd ∘ fun k => (k, l.count k)) = fun k => l.count k := rfl
  rw [h3, ← h2, h1]
  exact List.sum_toFinset_count_eq_length l

end StatsGenerator

namespace StatsGenerator

/-- The weight table of the specification, read as an if-chain with default
weight 1 for a level outside the table. -/
def specRiskWeight (s : String) : ℚ :=
  if s = "critical" then 10 else if s = "high" then 5
  else if s = "medium" then 3 else if s = "low" then 1
  else if s = "info" then 1/2 else 1

/-- Spec-side total weight: sum of the table weights of the findings. -/
def specTotalWeight (vulns : List Finding) : ℚ :=
  (vulns.map fun v => specRiskWeight (pyLower (v.risk_level.getD "unknown"))).sum

/-- Spec-side risk score, written from the words of the specification. -/
noncomputable def specRiskScore (vulns : List Finding) : ℝ :=
  if vulns = [] ∨ specTotalWeight vulns = 0 then 0
  else round1 (min 100
    (100 * Real.log (1 + (specTotalWeight vulns : ℝ) / 50) / Real.log 2))

lemma lookup_risk_weights (s : String) :
    (risk_weights.lookup s).getD 1 = specRiskWeight s := by
  unfold risk_weights specRiskWeight
  simp only [List.lookup_cons, List.lookup_nil]
  repeat' split <;> simp_all

lemma vulnWeight_eq_spec (v : Finding) :
    vulnWeight v = specRiskWeight (pyLower (v.risk_level.getD "unknown")) :=
  lookup_risk_weights _

lemma specRiskWeight_pos (s : String) : 0 < specRiskWeight s := by
  unfold specRiskWeight
  split_ifs <;> norm_num

lemma vulnWeight_pos (v : Finding) : 0 < vulnWeight v := by
  rw [vulnWeight_eq_spec]; exact specRiskWeight_pos _

lemma total_weight_eq_sum (l : List Finding) :
    total_weight l = (l.map vulnWeight).sum := by
  suffices aux : ∀ (l : List Finding) (c : ℚ),
      l.foldl (fun acc v => acc + vulnWeight v) c = c + (l.map vulnWeight).sum by
    simpa using aux l 0
  intro l
  induction l with
  | nil => simp
  | cons a t ih => intro c; simp [ih, add_assoc]

lemma total_weight_nil : total_weight [] = 0 := rfl

lemma total_weight_eq_specTotalWeight (l : List Finding) :
    total_weight l = specTotalWeight l := by
  rw [total_weight_eq_sum]
  unfold specTotalWeight
  have hf : vulnWeight = fun v : Finding =>
      specRiskWeight (pyLower (v.risk_level.getD "unknown")) :=
    funext vulnWeight_eq_spec
  rw [hf]

lemma total_weight_nonneg (l : List Finding) : 0 ≤ total_weight l := by
  rw [total_weight_eq_sum]
  apply List.sum_nonneg
  intro x hx
  obtain ⟨v, -, rfl⟩ := List.mem_map.1 hx
  exact (vulnWeight_pos v).le

/-- The risk score as a function of the total weight alone. -/
noncomputable def weightScore (w : ℚ) : ℝ :=
  if w = 0 then 0
  else round1 (min 100 (100 * Real.log (1 + (w : ℝ) / 50) / Real.log 2))

lemma calculate_risk_score_eq (l : List Finding) :
    calculate_risk_score l = weightScore (total_weight l) := by
  cases l with
  | nil => simp [calculate_risk_score, weightScore, total_weight_nil]
  | cons a t => simp [calculate_risk_score, weightScore]

lemma round_le_round {x y : ℝ} (h : x ≤ y) : round x ≤ round y := by
  rw [round_eq, round_eq]
  exact Int.floor_mono (by linarith)

lemma round1_mono {x y : ℝ} (h : x ≤ y) : round1 x ≤ round1 y := by
  unfold round1
  have h1 : round (10 * x) ≤ round (10 * y) := round_le_round (by linarith)
  have h2 : ((round (10 * x) : ℤ) : ℝ) ≤ ((round (10 * y) : ℤ) : ℝ) := by
    exact_mod_cast h1
  linarith

lemma round1_nonneg {x : ℝ} (h : 0 ≤ x) : 0 ≤ round1 x := by
  unfold round1
  have h1 : (0 : ℤ) ≤ round (10 * x) := by
    rw [round_eq]
    exact Int.le_floor.mpr (by push_cast; linarith)
  have h2 : (0 : ℝ) ≤ ((round (10 * x) : ℤ) : ℝ) := by exact_mod_cast h1
  linarith

lemma round1_le_100 {x : ℝ} (h : x ≤ 100) : round1 x ≤ 100 := by
  unfold round1
  have h1 : round (10 * x) ≤ round ((1000 : ℤ) : ℝ) := round_le_round (by push_cast; linarith)
  rw [round_intCast] at h1
  have h2 : ((round (10 * x) : ℤ) : ℝ) ≤ 1000 := by exact_mod_cast h1
  linarith

lemma log2_pos : (0 : ℝ) < Real.log 2 := Real.log_pos (by norm_num)

lemma weightScore_nonneg {w : ℚ} (hw : 0 ≤ w) : 0 ≤ weightScore w := by
  unfold weightScore
  split
  · exact le_refl 0
  · apply round1_nonneg
    apply le_min (by norm_num)
    apply div_nonneg _ log2_pos.le
    apply mul_nonneg (by norm_num)
    apply Real.log_nonneg
    have : (0 : ℝ) ≤ (w : ℝ) := by exact_mod_cast hw
    linarith

lemma weightScore_le_100 (w : ℚ) : weightScore w ≤ 100 := by
  unfold weightScore
  split
  · norm_num
  · exact round1_le_100 (min_le_left _ _)

lemma weightScore_mono {w1 w2 : ℚ} (h0 : 0 ≤ w1) (h : w1 ≤ w2) :
    weightScore w1 ≤ weightScore w2 := by
  by_cases h1 : w1 = 0
  · rw [h1]
    have hz : weightScore 0 = 0 := by simp [weightScore]
    rw [hz]
    exact weightScore_nonneg (h0.trans h)
  · have hw1 : 0 < w1 := lt_of_le_of_ne h0 (Ne.symm h1)
    have h2 : w2 ≠ 0 := (lt_of_lt_of_le hw1 h).ne.symm
    unfold weightScore
    rw [if_neg h1, if_neg h2]
    apply round1_mono
    apply min_le_min le_rfl
    have hc : (w1 : ℝ) ≤ (w2 : ℝ) := by exact_mod_cast h
    have hp : (0 : ℝ) < 1 + (w1 : ℝ) / 50 := by
      have : (0 : ℝ) ≤ (w1 : ℝ) := by exact_mod_cast h0
      linarith
    gcongr

end StatsGenerator

namespace StatsGenerator

/-- C1: `calculate_risk_score` computes exactly the specified function:
table-weighted total, zero for an empty collection or zero total weight,
else `min(100, 100*ln(1+totalWeight/50)/ln 2)` rounded to one decimal. -/
theorem spec_c1_risk_score_formula (vulns : List Finding) :
    calculate_risk_score vulns = specRiskScore vulns := by
  rw [calculate_risk_score_eq]
  unfold specRiskScore weightScore
  rw [← total_weight_eq_specTotalWeight]
  cases vulns with
  | nil => simp [total_weight_nil]
  | cons a t =>
    by_cases h : total_weight (a :: t) = 0
    · simp [h]
    · rw [if_neg h, if_neg (by simp [h])]

/-- C6: on the empty collection, `generate` returns the explicit all-zero
statistics record and `calculate_risk_score` returns 0. -/
theorem spec_c6_empty_stats :
    generate [] =
      { total_vulnerabilities := 0
        risk_distribution := []
        type_distribution := []
        top_vulnerability_types := []
        average_confidence := 0
        top_vulnerable_files := [] } ∧
    calculate_risk_score [] = 0 :=
  ⟨rfl, by simp [calculate_risk_score]⟩

/-- C5: in the statistics of any finding collection, the counts of the
risk-level distribution sum to `total_vulnerabilities`, and so do the counts
of the type distribution. -/
theorem spec_c5_distribution_sums (vulns : List Finding) :
    (((generate vulns).risk_distribution.map Prod.snd).sum =
      (generate vulns).total_vulnerabilities) ∧
    (((generate vulns).type_distribution.map Prod.snd).sum =
      (generate vulns).total_vulnerabilities) := by
  cases vulns with
  | nil => exact ⟨rfl, rfl⟩
  | cons a t =>
    constructor <;> simp [generate, pyCounter_snd_sum]

/-- C10: the weight of a finding is determined by the lower-cased risk
level through the weight table, and any level whose lower-casing is not a
key of `risk_weights` gets the default weight 1. -/
theorem spec_c10_weight_lookup :
    (∀ s : String,
      vulnWeight { risk_level := some s } = specRiskWeight (pyLower s)) ∧
    (∀ s : String, pyLower s ∉ risk_weights.map Prod.fst →
      vulnWeight { risk_level := some s } = 1) := by
  constructor
  · intro s
    exact vulnWeight_eq_spec { risk_level := some s }
  · intro s hs
    rw [vulnWeight_eq_spec { risk_level := some s }]
    simp only [risk_weights, List.map_cons, List.map_nil] at hs
    unfold specRiskWeight
    simp only [Option.getD_some]
    split_ifs <;> simp_all

/-- Witness for C10 at concrete inputs. -/
theorem spec_c10_weight_lookup_witness :
    vulnWeight { risk_level := some "CRITICAL" } = specRiskWeight (pyLower "CRITICAL") ∧
    vulnWeight { risk_level := some "Mystery" } = 1 :=
  ⟨spec_c10_weight_lookup.1 "CRITICAL",
   spec_c10_weight_lookup.2 "Mystery" (by decide)⟩

/-- C4: the risk score is monotone in the total weight and always lies in
the interval [0, 100]. -/
theorem spec_c4_monotone_bounded :
    (∀ A B : List Finding, total_weight A ≤ total_weight B →
      calculate_risk_score A ≤ calculate_risk_score B) ∧
    (∀ A : List Finding,
      0 ≤ calculate_risk_score A ∧ calculate_risk_score A ≤ 100) := by
  refine ⟨fun A B h => ?_, fun A => ⟨?_, ?_⟩⟩
  · rw [calculate_risk_score_eq, calculate_risk_score_eq]
    exact weightScore_mono (total_weight_nonneg A) h
  · rw [calculate_risk_score_eq]
    exact weightScore_nonneg (total_weight_nonneg A)
  · rw [calculate_risk_score_eq]
    exact weightScore_le_100 _

/-- Witness for C4 at concrete inputs. -/
theorem spec_c4_monotone_bounded_witness :
    (calculate_risk_score [] ≤
      calculate_risk_score [{ risk_level := some "critical" }]) ∧
    (0 ≤ calculate_risk_score [{ risk_level := some "critical" }] ∧
      calculate_risk_score [{ risk_level := some "critical" }] ≤ 100) :=
  ⟨spec_c4_monotone_bounded.1 _ _
      (by rw [show total_weight [] = 0 from rfl]; exact total_weight_nonneg _),
   spec_c4_monotone_bounded.2 _⟩

end StatsGenerator

namespace StatsGenerator

lemma trend_foldl (scan_results : String → Option ScanResult) :
    ∀ (ids : List String) (td0 : TrendData),
      ids.foldl (trendStep scan_results) td0 =
        { dates := td0.dates ++
            (ids.filterMap scan_results).map (fun r => r.timestamp.getD "")
          critical := td0.critical ++
            (ids.filterMap scan_results).map
              (fun r => (resultRiskLevels r).count "critical")
          high := td0.high ++
            (ids.filterMap scan_results).map
              (fun r => (resultRiskLevels r).count "high")
          medium := td0.medium ++
            (ids.filterMap scan_results).map
              (fun r => (resultRiskLevels r).count "medium")
          low := td0.low ++
            (ids.filterMap scan_results).map
              (fun r => (resultRiskLevels r).count "low")
          risk_scores := td0.risk_scores ++
            (ids.filterMap scan_results).map (fun r => r.risk_score.getD 0) } := by
  intro ids
  induction ids with
  | nil => intro td0; simp
  | cons i ids ih =>
    intro td0
    simp only [List.foldl_cons, List.filterMap_cons]
    cases h : scan_results i with
    | none => simp [trendStep, h, ih]
    | some r => simp [trendStep, h, ih]

/-- C8: `generate_trend_data` produces six parallel sequences of the same
length, one entry per scan id that resolves in the mapping, in input order;
unresolvable ids are skipped. -/
theorem spec_c8_trend_parallel (scan_ids : List String)
    (scan_results : String → Option ScanResult) :
    ((generate_trend_data scan_ids scan_results).dates.length =
        (scan_ids.filterMap scan_results).length ∧
      (generate_trend_data scan_ids scan_results).critical.length =
        (scan_ids.filterMap scan_results).length ∧
      (generate_trend_data scan_ids scan_results).high.length =
        (scan_ids.filterMap scan_results).length ∧
      (generate_trend_data scan_ids scan_results).medium.length =
        (scan_ids.filterMap scan_results).length ∧
      (generate_trend_data scan_ids scan_results).low.length =
        (scan_ids.filterMap scan_results).length ∧
      (generate_trend_data scan_ids scan_results).risk_scores.length =
        (scan_ids.filterMap scan_results).length) ∧
    ((generate_trend_data scan_ids scan_results).dates =
        (scan_ids.filterMap scan_results).map (fun r => r.timestamp.getD "") ∧
      (generate_trend_data scan_ids scan_results).critical =
        (scan_ids.filterMap scan_results).map
          (fun r => (resultRiskLevels r).count "critical") ∧
      (generate_trend_data scan_ids scan_results).high =
        (scan_ids.filterMap scan_results).map
          (fun r => (resultRiskLevels r).count "high") ∧
      (generate_trend_data scan_ids scan_results).medium =
        (scan_ids.filterMap scan_results).map
          (fun r => (resultRiskLevels r).count "medium") ∧
      (generate_trend_data scan_ids scan_results).low =
        (scan_ids.filterMap scan_results).map
          (fun r => (resultRiskLevels r).count "low") ∧
      (generate_trend_data scan_ids scan_results).risk_scores =
        (scan_ids.filterMap scan_results).map (fun r => r.risk_score.getD 0)) := by
  unfold generate_trend_data
  rw [trend_foldl]
  simp

end StatsGenerator

namespace FixGenerator

/-- C3 (code bug): on a finding of type `hardcoded_secrets` whose snippet
DOES re-match the hardcoded-secrets template pattern (first conjunct, with
captures `password` and `hunter2`), `generate_fix` returns the template
replacement verbatim, with the `{}` placeholders unfilled, instead of the
parameterized environment-variable rewrite the specification describes: the
branch conditions of `_apply_template` test membership in the keys of the
template dictionary (`pattern`/`replacement`/`explanation`), so the
`hardcoded_secrets` formatting branch is unreachable. -/
theorem spec_c3_secrets_fix_unparameterized :
    reSearch secretsPattern "password = \x22hunter2\x22" =
      some ["password", "hunter2"] ∧
    generate_fix { type := some "hardcoded_secrets",
                   code_snippet := some "password = \x22hunter2\x22" } =
      some { fixed_code := "{} = os.environ.get(\x27{}\x27, \x27\x27)",
             explanation := "Store secrets in environment variables or a secure vault service.",
             confidence := "medium" } :=
  ⟨by decide, by decide⟩

/-- C9: `generate_fix` always returns an actual fix record (never `none`),
because the type-based fallback is total. -/
theorem spec_c9_generate_fix_total (v : Finding) :
    ∃ fix : Fix, generate_fix v = some fix := by
  cases hf : fix_templates.findSome? (fun p =>
      if pyIn p.1 (pyLower (v.type.getD "")) then
        applyTemplate p.2 (v.code_snippet.getD "") else none) with
  | none => exact ⟨generate_type_based_fix v, by simp [generate_fix, hf]⟩
  | some fix => exact ⟨fix, by simp [generate_fix, hf]⟩

/-- Witness for C9 at a concrete input. -/
theorem spec_c9_generate_fix_total_witness :
    ∃ fix : Fix, generate_fix { type := some "weird_thing" } = some fix :=
  spec_c9_generate_fix_total _

/-- C7: when every registered template for the finding type fails to produce
a fix (no template key occurs in the type, or the pattern does not re-match
the stored snippet — the `except` path of `_apply_template` also returns
`None` in the source), `generate_fix` returns the type-based generic
fallback; being a total function, it propagates no exception. -/
theorem spec_c7_template_failure_falls_back (v : Finding)
    (h : ∀ p ∈ fix_templates,
      pyIn p.1 (pyLower (v.type.getD "")) = true →
      applyTemplate p.2 (v.code_snippet.getD "") = none) :
    generate_fix v = some (generate_type_based_fix v) := by
  have hn : fix_templates.findSome? (fun p =>
      if pyIn p.1 (pyLower (v.type.getD "")) then
        applyTemplate p.2 (v.code_snippet.getD "") else none) = none := by
    rw [List.findSome?_eq_none_iff]
    intro p hmem
    by_cases hc : pyIn p.1 (pyLower (v.type.getD "")) = true
    · simp only [hc, if_true]
      exact h p hmem hc
    · simp [hc]
  simp [generate_fix, hn]

/-- Witness for C7 at a concrete input whose type matches no template key. -/
theorem spec_c7_template_failure_falls_back_witness :
    generate_fix { type := some "weird_thing", code_snippet := some "x" } =
      some (generate_type_based_fix
        { type := some "weird_thing", code_snippet := some "x" }) :=
  spec_c7_template_failure_falls_back _ (by decide)

end FixGenerator

namespace StatsGenerator

lemma log_six_fifths_bounds :
    (34172 / 187500 : ℝ) ≤ Real.log (6 / 5) ∧
      Real.log (6 / 5) ≤ (34202 / 187500 : ℝ) := by
  have hx : |(-(1/5) : ℝ)| < 1 := by
    rw [abs_neg, abs_of_pos (by norm_num : (0:ℝ) < 1/5)]
    norm_num
  have h := Real.abs_log_sub_add_sum_range_le hx 5
  rw [show (1 : ℝ) - -(1/5) = 6/5 by norm_num] at h
  have hs : (∑ i in Finset.range 5, (-(1/5) : ℝ) ^ (i + 1) / (i + 1)) =
      -34187/187500 := by
    simp [Finset.sum_range_succ]
    norm_num
  rw [hs] at h
  have habs : |(-(1/5) : ℝ)| = 1/5 := by
    rw [abs_neg, abs_of_pos (by norm_num : (0:ℝ) < 1/5)]
  rw [habs] at h
  have hrhs : ((1 : ℝ)/5) ^ (5 + 1) / (1 - 1/5) = 1/12500 := by norm_num
  rw [hrhs] at h
  rw [abs_le] at h
  constructor <;> linarith [h.1, h.2]

lemma total_weight_one_critical :
    total_weight [{ risk_level := some "critical" }] = 10 := by
  have h1 : vulnWeight { risk_level := some "critical" } = 10 := by decide
  simp [total_weight, h1]

lemma risk_score_one_critical :
    calculate_risk_score [{ risk_level := some "critical" }] = 263/10 := by
  rw [calculate_risk_score_eq, total_weight_one_critical]
  unfold weightScore
  rw [if_neg (by norm_num)]
  have harg : (1 : ℝ) + ((10 : ℚ) : ℝ) / 50 = 6/5 := by push_cast; norm_num
  rw [harg]
  have hbounds := log_six_fifths_bounds
  have h2lo := Real.log_two_gt_d9
  have h2hi := Real.log_two_lt_d9
  have h2pos : (0 : ℝ) < Real.log 2 := by linarith
  set s := 100 * Real.log (6/5) / Real.log 2 with hs
  have hs_lo : (26.25 : ℝ) ≤ s := by
    rw [hs, le_div_iff₀ h2pos]
    nlinarith [hbounds.1, h2hi]
  have hs_hi : s < 26.35 := by
    rw [hs, div_lt_iff₀ h2pos]
    nlinarith [hbounds.2, h2lo]
  have hmin : min (100 : ℝ) s = s := min_eq_right (by linarith)
  rw [hmin]
  unfold round1
  have hr : round (10 * s) = 263 := by
    rw [round_eq]
    rw [Int.floor_eq_iff]
    constructor <;> push_cast <;> linarith
  rw [hr]
  norm_num

/-- C2 (counterexample): the score of one `critical` finding is NOT the
`25.8` the specification example states. -/
theorem spec_c2_counterexample :
    calculate_risk_score [{ risk_level := some "critical" }] ≠ 25.8 := by
  rw [risk_score_one_critical]
  norm_num

/-- C2 (amended): one `critical` finding gives `totalWeight = 10`, and the
score `round(100*ln(1 + 10/50)/ln 2, 1)` evaluates to `26.3`. -/
theorem spec_c2_amended_value :
    total_weight [{ risk_level := some "critical" }] = 10 ∧
    calculate_risk_score [{ risk_level := some "critical" }] = 26.3 := by
  refine ⟨total_weight_one_critical, ?_⟩
  rw [risk_score_one_critical]
  norm_num

end StatsGenerator
